import Mathlib

/-!
Shallow embedding of `src/oracle_user.py` (Ansible module managing a single
Oracle database account) and verification of its specification claims.

The module's reconciliation core consists of:
  * `getUser` — read the account record (name, tablespaces, password hash,
    account status) or `none` when no row matches;
  * the statement builders `getCreateUserSQL`, `getDropUserSQL`,
    `getUpdateUserSQL` — pure string builders;
  * `mapState` / `mapAccountStatus` — lifecycle/lock-state mappings;
  * `ensure` — one reconciliation pass: read, decide which single SQL
    statement to run (if any), execute it, re-read, report `changed`.

Optional string parameters follow Python truthiness: `None` and the empty
string both count as "not provided".  Python's `str.format` renders `None`
as the literal text `None`; `pyStr` mirrors that.
-/

/-- Python's `str.upper()` as applied to the account name
(`module.params['name'].upper()`, src line 138); uppercases each character
(it agrees with Python on the ASCII identifiers at issue). -/
def pyUpper (s : String) : String :=
  ⟨s.data.map Char.toUpper⟩

/-- The desired lifecycle, one of the four values admitted by the module's
`argument_spec` choices `["present", "absent", "locked", "unlocked"]`.
`AnsibleModule` rejects any other value before `ensure` runs, so the
embedding takes the state from this closed domain. -/
inductive UserState where
  | present
  | absent
  | locked
  | unlocked
deriving DecidableEq, Repr

/-- The account record assembled by `getUser` from the row of the
`dba_users` ⋈ `sys.user$` lookup.  `password` and the tablespaces are
optional (SQL NULL becomes Python `None`); `account_status` is the
database-reported status string such as `"OPEN"` or `"LOCKED"`. -/
structure OraUser where
  name : String
  default_tablespace : Option String
  temporary_tablespace : Option String
  password : Option String
  account_status : String
deriving DecidableEq, Repr

/-- The module parameters consumed by `ensure` (`module.params`). -/
structure Params where
  name : String
  password : Option String
  state : UserState
  default_tablespace : Option String
  temporary_tablespace : Option String
deriving DecidableEq, Repr

/-- Python truthiness of an optional string parameter: `None` and `""` are
falsy, every other string is truthy (`if password:` etc. in the source). -/
def truthy : Option String → Bool
  | none => false
  | some s => s ≠ ""

/-- Rendering of an optional string by Python's `str.format`:
`None` prints as the literal text `None`. -/
def pyStr : Option String → String
  | none => "None"
  | some s => s

/-- The database visible to the module: at most one account (the module
only ever touches the single upper-cased name it is given). -/
abbrev Db := Option OraUser

/-- `getUser(con, name)` (src lines 68-85): the catalog lookup by name;
returns the record when a row with that name exists, else `None`. -/
def getUser (db : Db) (name : String) : Option OraUser :=
  match db with
  | none => none
  | some u => if u.name = name then some u else none

/-- `getCreateUserSQL` (src lines 88-100): `CREATE USER <name> IDENTIFIED
BY VALUES '<hash>'`, then ` DEFAULT TABLESPACE <t>`, ` TEMPORARY
TABLESPACE <t>`, ` ACCOUNT <status>` each appended only when the
corresponding argument is truthy, in that order. -/
def getCreateUserSQL (name : String) (userpass dts tts account_status : Option String) :
    String :=
  let sql := "CREATE USER " ++ name ++ " IDENTIFIED BY VALUES '" ++ pyStr userpass ++ "'"
  let sql := if truthy dts then sql ++ " DEFAULT TABLESPACE " ++ pyStr dts else sql
  let sql := if truthy tts then sql ++ " TEMPORARY TABLESPACE " ++ pyStr tts else sql
  let sql := if truthy account_status then sql ++ " ACCOUNT " ++ pyStr account_status else sql
  sql

/-- `getDropUserSQL` (src lines 103-105): `DROP USER "<name>" CASCADE`. -/
def getDropUserSQL (name : String) : String :=
  "DROP USER \"" ++ name ++ "\" CASCADE"

/-- `getUpdateUserSQL` (src lines 108-119): `ALTER USER <name>` followed by
the password / default tablespace / temporary tablespace clauses for every
truthy argument.  Note: the `account_status` parameter is accepted but never
used by the source — no `ACCOUNT` clause is ever emitted. -/
def getUpdateUserSQL (name : String) (userpass dts tts account_status : Option String) :
    String :=
  let sql := "ALTER USER " ++ name
  let sql := if truthy userpass then sql ++ " IDENTIFIED BY VALUES '" ++ pyStr userpass ++ "'" else sql
  let sql := if truthy dts then sql ++ " DEFAULT TABLESPACE " ++ pyStr dts else sql
  let sql := if truthy tts then sql ++ " TEMPORARY TABLESPACE " ++ pyStr tts else sql
  let _ := account_status
  sql

/-- `mapState` (src lines 122-125): desired lifecycle to the `ACCOUNT`
clause keyword — `present`/`unlocked` map to `UNLOCK`, everything else
(including `locked`) to `LOCK`. -/
def mapState : UserState → String
  | .present => "UNLOCK"
  | .unlocked => "UNLOCK"
  | _ => "LOCK"

/-- `mapAccountStatus` (src lines 128-131): observed status `"OPEN"` maps to
the lifecycle list `['present', 'unlocked']`; any other status to `'locked'`.
The source returns the bare string `'locked'` in the second branch and the
caller tests `state not in ...`, which for a string is Python substring
containment; on the four admissible lifecycle values, being a substring of
`"locked"` coincides with being equal to `"locked"`, so the embedding
returns the singleton list. -/
def mapAccountStatus (account_status : String) : List UserState :=
  if account_status = "OPEN" then [.present, .unlocked] else [.locked]

/-- A statement submitted to `executeSQL`, recorded as the builder call the
source makes (which builder, with which arguments).  Its SQL text is
`Stmt.sql`. -/
inductive Stmt where
  | create (name : String) (userpass dts tts account_status : Option String)
  | drop (name : String)
  | update (name : String) (userpass dts tts account_status : Option String)
deriving DecidableEq, Repr

/-- The statement text, exactly as the source's builders produce it. -/
def Stmt.sql : Stmt → String
  | .create n up d t a => getCreateUserSQL n up d t a
  | .drop n => getDropUserSQL n
  | .update n up d t a => getUpdateUserSQL n up d t a

/-- The statement-selection logic of `ensure` (src lines 146-165), the pure
decision core: given the parameters and the observed record (or `none`),
the single statement to execute this pass, or `none` for a NoOp.

The source assigns to one `sql` variable through a chain of branches:
`if not user:` create (unless absent); else `if absent:` drop `elif`
lock-state mismatch: lock/unlock alter; then three further *independent*
`if` statements (not `elif`) each overwriting `sql` when the password /
default tablespace / temporary tablespace is provided and differs.
(Spec §4.2 names this pure function `decide(desired, current)`.) -/
def decideStmt (p : Params) (user : Option OraUser) : Option Stmt :=
  let name := pyUpper p.name
  match user with
  | none =>
    if p.state ≠ .absent then
      some (.create name p.password p.default_tablespace p.temporary_tablespace
        (some (mapState p.state)))
    else
      none
  | some u =>
    let sql : Option Stmt :=
      if p.state = .absent then
        some (.drop name)
      else if p.state ∉ mapAccountStatus u.account_status then
        some (.update name none none none (some (mapState p.state)))
      else
        none
    let sql : Option Stmt :=
      if truthy p.password ∧ u.password ≠ p.password then
        some (.update name p.password none none none)
      else sql
    let sql : Option Stmt :=
      if truthy p.default_tablespace ∧ u.default_tablespace ≠ p.default_tablespace then
        some (.update name none p.default_tablespace none none)
      else sql
    let sql : Option Stmt :=
      if truthy p.temporary_tablespace ∧ u.temporary_tablespace ≠ p.temporary_tablespace then
        some (.update name none none p.temporary_tablespace none)
      else sql
    sql

/-- Modelled from the spec: the database's execution of the emitted
statement text is outside the repository (the Transport collaborator of
spec §2/§6 and the Oracle server itself).  This transition interprets
exactly the clauses present in the statement's SQL text: CREATE makes the
account exist with the literal hash text, the tablespaces whose clauses
were emitted, and `OPEN`/`LOCKED` status from the `ACCOUNT` clause; DROP
removes the account; ALTER overwrites exactly the fields whose clauses
were emitted (recall `getUpdateUserSQL` never emits an `ACCOUNT` clause,
so `update`'s `account_status` argument has no effect). -/
def applyStmt (db : Db) : Stmt → Db
  | .create n up d t a =>
    some
      { name := n
        default_tablespace := if truthy d then d else none
        temporary_tablespace := if truthy t then t else none
        password := some (pyStr up)
        account_status := if truthy a ∧ a = some "LOCK" then "LOCKED" else "OPEN" }
  | .drop _ => none
  | .update n up d t _ =>
    match db with
    | none => none
    | some u =>
      if u.name = n then
        some
          { u with
            password := if truthy up then up else u.password
            default_tablespace := if truthy d then d else u.default_tablespace
            temporary_tablespace := if truthy t then t else u.temporary_tablespace }
      else some u

/-- `executeSQL` (src lines 59-65): runs the statement.  The except
handler intends `module.fail_json(msg='{sql}: {err}')`, but `module` is a
local variable of `main()` and is undefined in `executeSQL`'s scope
(unlike `ensure`, which receives it as a parameter), so on a driver error
the handler itself raises `NameError: name 'module' is not defined` before
the `'{sql}: {err}'` message is ever formatted.  The pass still aborts —
uncaught, the NameError propagates out of `ensure` and `main` — but the
surfaced failure carries neither the statement text nor the driver error
message.  The driver outcome is injected as `driverErr` (`none` =
success); its text is dropped, as the code drops it. -/
def executeSQL (db : Db) (driverErr : Option String) (stmt : Stmt) :
    Except String Db :=
  match driverErr with
  | some _ => .error "NameError: name 'module' is not defined"
  | none => .ok (applyStmt db stmt)

/-- Outcome of one `ensure` pass. -/
structure EnsureOut where
  /-- `.ok (changed, finalRecord)` on normal return (src line 169);
  `.error msg` when the pass aborted inside `executeSQL`. -/
  result : Except String (Bool × Option OraUser)
  /-- Database state after the pass. -/
  db : Db
  /-- The statements submitted to `executeSQL` during the pass. -/
  executed : List Stmt
  /-- Number of `getUser` lookups performed during the pass. -/
  reads : Nat
deriving Repr

/-- `ensure` (src lines 134-169): one reconciliation pass.  Reads the
account, selects at most one statement (`decide`), executes it (aborting
on a driver error without any further read), and returns the `changed`
flag together with a fresh re-read of the account. -/
def ensure (p : Params) (driverErr : Option String) (db : Db) : EnsureOut :=
  match decideStmt p (getUser db (pyUpper p.name)) with
  | none =>
    { result := .ok (false, getUser db (pyUpper p.name)), db := db,
      executed := [], reads := 2 }
  | some stmt =>
    match executeSQL db driverErr stmt with
    | .error msg => { result := .error msg, db := db, executed := [stmt], reads := 1 }
    | .ok db2 =>
      { result := .ok (true, getUser db2 (pyUpper p.name)), db := db2,
        executed := [stmt], reads := 2 }

/-- `reconcile` of spec §4.3: a pass with a successful driver. -/
def reconcile (p : Params) (db : Db) : EnsureOut :=
  ensure p none db

/-! ## Concrete fixtures used by counterexamples and witnesses -/

/-- An existing, open account with password hash `H1` and tablespaces
`TS1`/`TMP1`. -/
def uFix : OraUser :=
  { name := "FOO", default_tablespace := some "TS1", temporary_tablespace := some "TMP1",
    password := some "H1", account_status := "OPEN" }

/-- `uFix` after its password hash has been set to `H2`. -/
def uFixH2 : OraUser :=
  { uFix with password := some "H2" }

/-- Desired state: new hash `H2` and a different default tablespace. -/
def pPassAndTbs : Params :=
  { name := "foo", password := some "H2", state := .present,
    default_tablespace := some "TS2", temporary_tablespace := none }

/-- Desired state: only the password hash differs. -/
def pPassOnly : Params :=
  { name := "foo", password := some "H2", state := .present,
    default_tablespace := none, temporary_tablespace := none }

/-- Desired state: only the temporary tablespace differs. -/
def pTmpOnly : Params :=
  { name := "foo", password := none, state := .present,
    default_tablespace := none, temporary_tablespace := some "TMP2" }

/-- Desired state: lock the account, nothing else managed. -/
def pLockOnly : Params :=
  { name := "foo", password := none, state := .locked,
    default_tablespace := none, temporary_tablespace := none }

/-- Desired state: lock the account and set a new password hash. -/
def pLockAndPass : Params :=
  { name := "foo", password := some "H2", state := .locked,
    default_tablespace := none, temporary_tablespace := none }

/-- Desired state: account absent, nothing else managed. -/
def pAbsentNone : Params :=
  { name := "foo", password := none, state := .absent,
    default_tablespace := none, temporary_tablespace := none }

/-- Desired state: account absent, but with a password hash also given. -/
def pAbsentPass : Params :=
  { name := "foo", password := some "XYZ", state := .absent,
    default_tablespace := none, temporary_tablespace := none }

/-- An existing, open account whose stored hash is `ABC`. -/
def uDropPw : OraUser :=
  { name := "FOO", default_tablespace := some "TS1", temporary_tablespace := some "TMP1",
    password := some "ABC", account_status := "OPEN" }

/-- Desired state: both tablespaces differ from `uFix`; nothing else managed. -/
def pTwoTbs : Params :=
  { name := "foo", password := none, state := .present,
    default_tablespace := some "TS2", temporary_tablespace := some "TMP2" }

/-- Desired state: create a locked account with hash `H` and a default
tablespace. -/
def pCrFix : Params :=
  { name := "foo", password := some "H", state := .locked,
    default_tablespace := some "TS1", temporary_tablespace := none }

/-- Desired state: create an account with no password hash provided. -/
def pCrNoPw : Params :=
  { name := "foo", password := none, state := .present,
    default_tablespace := none, temporary_tablespace := some "TMP1" }

/-! ## Helper lemmas -/

theorem absent_not_mem_mapAccountStatus (s : String) :
    UserState.absent ∉ mapAccountStatus s := by
  unfold mapAccountStatus
  split <;> simp

theorem mem_mapAccountStatus_ne_absent {st : UserState} {s : String}
    (h : st ∈ mapAccountStatus s) : st ≠ .absent := by
  intro he
  exact absent_not_mem_mapAccountStatus s (he ▸ h)

theorem truthy_mapState (st : UserState) : truthy (some (mapState st)) = true := by
  cases st <;> decide

theorem truthy_none : truthy none = false := rfl

/-- On an existing account, a provided-and-differing temporary tablespace
wins over every other branch: it is the last assignment to `sql`. -/
theorem decideStmt_tts_last (p : Params) (u : OraUser)
    (ht : truthy p.temporary_tablespace ∧ u.temporary_tablespace ≠ p.temporary_tablespace) :
    decideStmt p (some u) =
      some (.update (pyUpper p.name) none none p.temporary_tablespace none) := by
  simp only [decideStmt]
  rw [if_pos ht]

/-- On an existing account with no tablespace diff, a provided-and-differing
password hash yields the password-only ALTER. -/
theorem decideStmt_password_of_no_tbs_diff (p : Params) (u : OraUser)
    (_hmatch : p.state ∈ mapAccountStatus u.account_status)
    (hpw : truthy p.password ∧ u.password ≠ p.password)
    (hd : ¬(truthy p.default_tablespace ∧ u.default_tablespace ≠ p.default_tablespace))
    (ht : ¬(truthy p.temporary_tablespace ∧ u.temporary_tablespace ≠ p.temporary_tablespace)) :
    decideStmt p (some u) = some (.update (pyUpper p.name) p.password none none none) := by
  simp only [decideStmt]
  rw [if_neg ht, if_neg hd, if_pos hpw]

/-- A fully converged account (lifecycle matches, no field diff) yields no
statement. -/
theorem decideStmt_none_of_converged (p : Params) (u : OraUser)
    (hmatch : p.state ∈ mapAccountStatus u.account_status)
    (hpw : ¬(truthy p.password ∧ u.password ≠ p.password))
    (hd : ¬(truthy p.default_tablespace ∧ u.default_tablespace ≠ p.default_tablespace))
    (ht : ¬(truthy p.temporary_tablespace ∧ u.temporary_tablespace ≠ p.temporary_tablespace)) :
    decideStmt p (some u) = none := by
  have habs : ¬ p.state = .absent := mem_mapAccountStatus_ne_absent hmatch
  simp only [decideStmt]
  rw [if_neg ht, if_neg hd, if_neg hpw, if_neg habs, if_neg (not_not_intro hmatch)]

/-- A pass that selects no statement changes nothing and reports the
re-read record. -/
theorem ensure_eq_noop (p : Params) (driverErr : Option String) (db : Db)
    (h : decideStmt p (getUser db (pyUpper p.name)) = none) :
    ensure p driverErr db =
      { result := .ok (false, getUser db (pyUpper p.name)), db := db,
        executed := [], reads := 2 } := by
  unfold ensure
  rw [h]

/-- A pass that selects a statement, on a successful driver, applies it and
reports `changed = true` with the re-read record. -/
theorem ensure_eq_changed (p : Params) (db : Db) (stmt : Stmt)
    (h : decideStmt p (getUser db (pyUpper p.name)) = some stmt) :
    ensure p none db =
      { result := .ok (true, getUser (applyStmt db stmt) (pyUpper p.name)),
        db := applyStmt db stmt, executed := [stmt], reads := 2 } := by
  unfold ensure
  rw [h]
  rfl

/-- The CREATE statement text: mandatory `CREATE USER ... IDENTIFIED BY
VALUES '<hash>'` head, then one optional clause per truthy value, in the
fixed order default tablespace, temporary tablespace, account lock-state
(the latter always present when derived via `mapState`). -/
theorem getCreateUserSQL_shape (name : String) (up dts tts : Option String) (st : UserState) :
    getCreateUserSQL name up dts tts (some (mapState st)) =
      "CREATE USER " ++ name ++ " IDENTIFIED BY VALUES '" ++ pyStr up ++ "'"
        ++ (if truthy dts then " DEFAULT TABLESPACE " ++ pyStr dts else "")
        ++ (if truthy tts then " TEMPORARY TABLESPACE " ++ pyStr tts else "")
        ++ " ACCOUNT " ++ mapState st := by
  unfold getCreateUserSQL
  rw [truthy_mapState]
  cases hd : truthy dts <;> cases ht : truthy tts <;>
    simp only [hd, ht, Bool.false_eq_true, if_true, if_false, ite_true, ite_false, pyStr,
      String.append_empty, String.empty_append, String.append_assoc]

/-! ## Claims -/

/-- C1, as stated, is false: with the stored hash differing from the
desired hash AND the default tablespace also differing, the decision
function does not build the password-only ALTER; the later tablespace
branch overwrites it (the source uses independent `if` statements, so the
last diff found wins, not the first). -/
theorem C1_counterexample :
    decideStmt pPassAndTbs (some uFix) =
      some (.update "FOO" none (some "TS2") none none) ∧
    decideStmt pPassAndTbs (some uFix) ≠
      some (.update "FOO" (some "H2") none none none) := by
  decide

/-- C1 (amended): on an existing, lifecycle-matching account the decision
function applies only the LAST diff found in the order passwordHash,
defaultTablespace, temporaryTablespace (each later branch overwrites the
statement of an earlier one); in particular the password-only ALTER is
built exactly when the stored hash differs from a provided desired hash
and neither tablespace also mismatches, and a provided-and-differing
temporary tablespace always wins. -/
theorem C1_amended :
    (∀ (p : Params) (u : OraUser),
      p.state ∈ mapAccountStatus u.account_status →
      truthy p.password ∧ u.password ≠ p.password →
      ¬(truthy p.default_tablespace ∧ u.default_tablespace ≠ p.default_tablespace) →
      ¬(truthy p.temporary_tablespace ∧ u.temporary_tablespace ≠ p.temporary_tablespace) →
      decideStmt p (some u) = some (.update (pyUpper p.name) p.password none none none)) ∧
    (∀ (p : Params) (u : OraUser),
      truthy p.temporary_tablespace ∧ u.temporary_tablespace ≠ p.temporary_tablespace →
      decideStmt p (some u) =
        some (.update (pyUpper p.name) none none p.temporary_tablespace none)) :=
  ⟨decideStmt_password_of_no_tbs_diff, decideStmt_tts_last⟩

/-- Witness for C1 (amended) at concrete inputs: a pure password diff
yields the password-only ALTER, and a pure temporary-tablespace diff
yields the temporary-tablespace ALTER. -/
theorem C1_amended_witness :
    decideStmt pPassOnly (some uFix) =
      some (.update (pyUpper pPassOnly.name) (some "H2") none none none) ∧
    decideStmt pTmpOnly (some uFix) =
      some (.update (pyUpper pTmpOnly.name) none none (some "TMP2") none) :=
  ⟨C1_amended.1 pPassOnly uFix (by decide) (by decide) (by decide) (by decide),
   C1_amended.2 pTmpOnly uFix (by decide)⟩

/-- C2 is a code bug: for an existing OPEN account with desired lifecycle
`locked`, the statement built is `ALTER USER FOO` with no `ACCOUNT LOCK`
clause at all (`getUpdateUserSQL` accepts an `account_status` argument but
never appends it), and a simultaneously differing password overwrites the
lock ALTER entirely (the field-diff `if`s are not `elif`s of the lock
branch), contradicting both the claimed statement text and the claimed
lock-over-field priority. -/
theorem C2_code_bug :
    decideStmt pLockOnly (some uFix) =
      some (.update "FOO" none none none (some "LOCK")) ∧
    (Stmt.update "FOO" none none none (some "LOCK")).sql = "ALTER USER FOO" ∧
    decideStmt pLockAndPass (some uFix) =
      some (.update "FOO" (some "H2") none none none) := by
  decide

/-- C4: a single reconciliation pass submits at most one mutating
statement to `executeSQL`, for every desired state, driver behavior, and
database state. -/
theorem C4_at_most_one_statement (p : Params) (driverErr : Option String) (db : Db) :
    (ensure p driverErr db).executed.length ≤ 1 := by
  unfold ensure
  cases decideStmt p (getUser db (pyUpper p.name)) with
  | none => simp
  | some stmt =>
    unfold executeSQL
    cases driverErr <;> simp

/-- C7 is a code bug: for an existing account with desired lifecycle
`absent` whose stored hash differs from a simultaneously provided hash,
the DROP statement assigned by the absent branch is overwritten by the
password ALTER (the field-diff `if`s are not `elif`s), so the pass does
not drop the user and the final record is not NotFound. -/
theorem C7_code_bug :
    decideStmt pAbsentPass (some uDropPw) =
      some (.update "FOO" (some "XYZ") none none none) ∧
    decideStmt pAbsentPass (some uDropPw) ≠ some (.drop "FOO") ∧
    (Stmt.update "FOO" (some "XYZ") none none none).sql =
      "ALTER USER FOO IDENTIFIED BY VALUES 'XYZ'" ∧
    (reconcile pAbsentPass (some uDropPw)).result.toOption.map Prod.snd ≠ some none := by
  decide

/-- C8: when the account does not exist and the desired lifecycle is
`absent`, the pass is a NoOp: no statement is built or executed, `changed`
is false, and the final record is NotFound (the database is untouched). -/
theorem C8_absent_notfound_noop (p : Params) (driverErr : Option String) (db : Db)
    (hstate : p.state = .absent) (hnf : getUser db (pyUpper p.name) = none) :
    (ensure p driverErr db).result = .ok (false, none) ∧
    (ensure p driverErr db).executed = [] ∧
    (ensure p driverErr db).db = db := by
  have hd : decideStmt p (getUser db (pyUpper p.name)) = none := by
    rw [hnf]
    simp [decideStmt, hstate]
  rw [ensure_eq_noop p driverErr db hd, hnf]
  exact ⟨rfl, rfl, rfl⟩

/-- Witness for C8 at a concrete input: desired `absent` against an empty
database is a NoOp. -/
theorem C8_witness :
    (ensure pAbsentNone none none).result = .ok (false, none) ∧
    (ensure pAbsentNone none none).executed = [] ∧
    (ensure pAbsentNone none none).db = none :=
  C8_absent_notfound_noop pAbsentNone none none (by decide) (by decide)

/-- C9 is a code bug: when the driver fails on the mutating statement, the
pass does abort as a fatal error without attempting the confirmation
re-read (only one read performed), but the surfaced message is the
handler's own `NameError: name 'module' is not defined` — `module` is
local to `main()` and undefined in `executeSQL` — not the intended
`'{sql}: {err}'` text, so neither the statement text nor the driver error
message ever appears in it. -/
theorem C9_code_bug :
    (ensure pLockOnly (some "ORA-01031: insufficient privileges") (some uFix)).result =
      .error "NameError: name 'module' is not defined" ∧
    (ensure pLockOnly (some "ORA-01031: insufficient privileges") (some uFix)).reads = 1 ∧
    ("NameError: name 'module' is not defined" : String) ≠
      (Stmt.update "FOO" none none none (some "LOCK")).sql ++ ": " ++
        "ORA-01031: insufficient privileges" :=
  ⟨rfl, rfl, by decide⟩

/-- C3, as stated, is false on two counts: a first pass over an
already-converged state (absent desired, no account) returns
`changed = false`, and when both tablespaces differ the second pass still
returns `changed = true` (one diff is converged per pass). -/
theorem C3_counterexample :
    (reconcile pAbsentNone none).result.toOption.map Prod.fst = some false ∧
    (reconcile pTwoTbs (some uFix)).result.toOption.map Prod.fst = some true ∧
    (reconcile pTwoTbs (reconcile pTwoTbs (some uFix)).db).result.toOption.map
      Prod.fst = some true := by
  decide

/-- C3 (amended): a pass that returns `changed = false` leaves the
database untouched and every repetition again returns `changed = false`
with the same record; and when the account exists under the looked-up
name, its lifecycle matches, and exactly one managed field (the password
hash) differs, the first pass returns `changed = true` and the second
`changed = false`.  In general the first pass may be `changed = false`
(already converged) and the second `changed = true` (several diffs
converge over several passes). -/
theorem C3_amended :
    (∀ (p : Params) (db : Db) (r : Option OraUser),
      (reconcile p db).result = .ok (false, r) →
      (reconcile p db).db = db ∧
      (reconcile p (reconcile p db).db).result = .ok (false, r)) ∧
    (∀ (p : Params) (u : OraUser),
      u.name = pyUpper p.name →
      p.state ∈ mapAccountStatus u.account_status →
      truthy p.password ∧ u.password ≠ p.password →
      ¬(truthy p.default_tablespace ∧ u.default_tablespace ≠ p.default_tablespace) →
      ¬(truthy p.temporary_tablespace ∧ u.temporary_tablespace ≠ p.temporary_tablespace) →
      (reconcile p (some u)).result.toOption.map Prod.fst = some true ∧
      (reconcile p (reconcile p (some u)).db).result.toOption.map Prod.fst = some false) := by
  constructor
  · intro p db r h
    simp only [reconcile] at h ⊢
    cases hd : decideStmt p (getUser db (pyUpper p.name)) with
    | none =>
      rw [ensure_eq_noop p none db hd] at h
      simp only [Except.ok.injEq, Prod.mk.injEq, true_and] at h
      have hdb : (ensure p none db).db = db := by
        rw [ensure_eq_noop p none db hd]
      refine ⟨hdb, ?_⟩
      rw [hdb, ensure_eq_noop p none db hd, h]
    | some stmt =>
      rw [ensure_eq_changed p db stmt hd] at h
      simp at h
  · intro p u hname hmatch hpw hd ht
    simp only [reconcile]
    have hg : getUser (some u) (pyUpper p.name) = some u := by
      simp [getUser, hname]
    have h1 : decideStmt p (getUser (some u) (pyUpper p.name)) =
        some (.update (pyUpper p.name) p.password none none none) := by
      rw [hg]
      exact decideStmt_password_of_no_tbs_diff p u hmatch hpw hd ht
    have hdb2 : applyStmt (some u) (.update (pyUpper p.name) p.password none none none) =
        some { u with password := p.password } := by
      simp [applyStmt, hname, hpw.1, truthy_none]
    have hdb : (ensure p none (some u)).db = some { u with password := p.password } := by
      rw [ensure_eq_changed p (some u) _ h1]
      exact hdb2
    have hu2 : getUser (some { u with password := p.password }) (pyUpper p.name) =
        some { u with password := p.password } := by
      simp [getUser, hname]
    have h2 : decideStmt p
        (getUser (some { u with password := p.password }) (pyUpper p.name)) = none := by
      rw [hu2]
      refine decideStmt_none_of_converged p { u with password := p.password } hmatch ?_ hd ht
      intro hcon
      exact hcon.2 rfl
    constructor
    · rw [ensure_eq_changed p (some u) _ h1]
      rfl
    · rw [hdb, ensure_eq_noop p none (some { u with password := p.password }) h2]
      rfl

/-- Witness for C3 (amended) at concrete inputs: desired `absent` on an
empty database is a stable NoOp, and a pure password diff converges in one
pass (`changed = true` then `changed = false`). -/
theorem C3_amended_witness :
    ((reconcile pAbsentNone none).db = none ∧
     (reconcile pAbsentNone (reconcile pAbsentNone none).db).result = .ok (false, none)) ∧
    ((reconcile pPassOnly (some uFix)).result.toOption.map Prod.fst = some true ∧
     (reconcile pPassOnly (reconcile pPassOnly (some uFix)).db).result.toOption.map
       Prod.fst = some false) :=
  ⟨C3_amended.1 pAbsentNone none none rfl,
   C3_amended.2 pPassOnly uFix rfl (by decide) (by decide) (by decide) (by decide)⟩

/-- C5: on a pass that returns normally, `changed` is true exactly when the
decision function produced a statement (whose execution then succeeded),
and when no statement was built, `changed` is false and the reported
record is the fresh re-read of the account. -/
theorem C5_changed_iff (p : Params) (driverErr : Option String) (db : Db)
    (c : Bool) (r : Option OraUser)
    (hok : (ensure p driverErr db).result = .ok (c, r)) :
    (c = true ↔ (decideStmt p (getUser db (pyUpper p.name))).isSome = true) ∧
    (decideStmt p (getUser db (pyUpper p.name)) = none →
      c = false ∧ r = getUser db (pyUpper p.name)) := by
  cases hd : decideStmt p (getUser db (pyUpper p.name)) with
  | none =>
    rw [ensure_eq_noop p driverErr db hd] at hok
    simp only [Except.ok.injEq, Prod.mk.injEq] at hok
    obtain ⟨hc, hr⟩ := hok
    subst hc
    subst hr
    simp [hd]
  | some stmt =>
    cases driverErr with
    | some e =>
      unfold ensure at hok
      rw [hd] at hok
      simp [executeSQL] at hok
    | none =>
      rw [ensure_eq_changed p db stmt hd] at hok
      simp only [Except.ok.injEq, Prod.mk.injEq] at hok
      obtain ⟨hc, hr⟩ := hok
      subst hc
      subst hr
      simp [hd]

/-- Witness for C5 at a concrete input: a pure password diff yields
`changed = true`, a built statement, and the re-read record. -/
theorem C5_witness :
    (true = true ↔
      (decideStmt pPassOnly (getUser (some uFix) (pyUpper pPassOnly.name))).isSome = true) ∧
    (decideStmt pPassOnly (getUser (some uFix) (pyUpper pPassOnly.name)) = none →
      true = false ∧ some uFixH2 = getUser (some uFix) (pyUpper pPassOnly.name)) :=
  C5_changed_iff pPassOnly none (some uFix) true (some uFixH2) rfl

/-- C6: when the account does not exist and the desired lifecycle is not
`absent`, exactly one CREATE statement is built and executed; its text
begins `CREATE USER <name> IDENTIFIED BY VALUES '<hash>'` and carries the
DEFAULT TABLESPACE / TEMPORARY TABLESPACE clauses only when the
corresponding value is provided, in that fixed order, followed by the
ACCOUNT clause whose keyword is UNLOCK for present/unlocked and LOCK for
locked. -/
theorem C6_create_statement (p : Params) (db : Db)
    (hnf : getUser db (pyUpper p.name) = none) (habs : p.state ≠ .absent) :
    decideStmt p (getUser db (pyUpper p.name)) =
      some (.create (pyUpper p.name) p.password p.default_tablespace p.temporary_tablespace
        (some (mapState p.state))) ∧
    (ensure p none db).executed =
      [.create (pyUpper p.name) p.password p.default_tablespace p.temporary_tablespace
        (some (mapState p.state))] ∧
    (Stmt.create (pyUpper p.name) p.password p.default_tablespace p.temporary_tablespace
        (some (mapState p.state))).sql =
      "CREATE USER " ++ pyUpper p.name ++ " IDENTIFIED BY VALUES '" ++ pyStr p.password ++ "'"
        ++ (if truthy p.default_tablespace then
              " DEFAULT TABLESPACE " ++ pyStr p.default_tablespace else "")
        ++ (if truthy p.temporary_tablespace then
              " TEMPORARY TABLESPACE " ++ pyStr p.temporary_tablespace else "")
        ++ " ACCOUNT " ++ mapState p.state ∧
    ((p.state = .present ∨ p.state = .unlocked) → mapState p.state = "UNLOCK") ∧
    (p.state = .locked → mapState p.state = "LOCK") := by
  have hd : decideStmt p (getUser db (pyUpper p.name)) =
      some (.create (pyUpper p.name) p.password p.default_tablespace p.temporary_tablespace
        (some (mapState p.state))) := by
    rw [hnf]
    simp [decideStmt, habs]
  refine ⟨hd, ?_, getCreateUserSQL_shape _ _ _ _ _, ?_, ?_⟩
  · rw [ensure_eq_changed p db _ hd]
  · rintro (h | h) <;> simp [h, mapState]
  · intro h
    simp [h, mapState]

/-- Witness for C6 at a concrete input: creating a locked account with
hash `H` and default tablespace `TS1` on an empty database. -/
theorem C6_witness :
    decideStmt pCrFix (getUser none (pyUpper pCrFix.name)) =
      some (.create (pyUpper pCrFix.name) pCrFix.password pCrFix.default_tablespace
        pCrFix.temporary_tablespace (some (mapState pCrFix.state))) ∧
    (ensure pCrFix none none).executed =
      [.create (pyUpper pCrFix.name) pCrFix.password pCrFix.default_tablespace
        pCrFix.temporary_tablespace (some (mapState pCrFix.state))] ∧
    (Stmt.create (pyUpper pCrFix.name) pCrFix.password pCrFix.default_tablespace
        pCrFix.temporary_tablespace (some (mapState pCrFix.state))).sql =
      "CREATE USER " ++ pyUpper pCrFix.name ++ " IDENTIFIED BY VALUES '"
        ++ pyStr pCrFix.password ++ "'"
        ++ (if truthy pCrFix.default_tablespace then
              " DEFAULT TABLESPACE " ++ pyStr pCrFix.default_tablespace else "")
        ++ (if truthy pCrFix.temporary_tablespace then
              " TEMPORARY TABLESPACE " ++ pyStr pCrFix.temporary_tablespace else "")
        ++ " ACCOUNT " ++ mapState pCrFix.state ∧
    ((pCrFix.state = .present ∨ pCrFix.state = .unlocked) →
      mapState pCrFix.state = "UNLOCK") ∧
    (pCrFix.state = .locked → mapState pCrFix.state = "LOCK") :=
  C6_create_statement pCrFix none (by decide) (by decide)

/-- C10: when the account does not exist, the desired lifecycle is not
`absent`, and no password hash is provided, the CREATE statement still
carries an `IDENTIFIED BY VALUES` clause whose credential is the literal
text `None` (Python's rendering of the absent value), rather than the
clause being omitted or the pass failing. -/
theorem C10_missing_hash_renders_none (p : Params) (db : Db)
    (hnf : getUser db (pyUpper p.name) = none) (habs : p.state ≠ .absent)
    (hpw : p.password = none) :
    decideStmt p (getUser db (pyUpper p.name)) =
      some (.create (pyUpper p.name) p.password p.default_tablespace p.temporary_tablespace
        (some (mapState p.state))) ∧
    (Stmt.create (pyUpper p.name) p.password p.default_tablespace p.temporary_tablespace
        (some (mapState p.state))).sql =
      "CREATE USER " ++ pyUpper p.name ++ " IDENTIFIED BY VALUES '" ++ "None" ++ "'"
        ++ (if truthy p.default_tablespace then
              " DEFAULT TABLESPACE " ++ pyStr p.default_tablespace else "")
        ++ (if truthy p.temporary_tablespace then
              " TEMPORARY TABLESPACE " ++ pyStr p.temporary_tablespace else "")
        ++ " ACCOUNT " ++ mapState p.state := by
  have hd : decideStmt p (getUser db (pyUpper p.name)) =
      some (.create (pyUpper p.name) p.password p.default_tablespace p.temporary_tablespace
        (some (mapState p.state))) := by
    rw [hnf]
    simp [decideStmt, habs]
  refine ⟨hd, ?_⟩
  have hshape := getCreateUserSQL_shape (pyUpper p.name) p.password p.default_tablespace
    p.temporary_tablespace p.state
  rw [hpw] at hshape
  rw [hpw]
  simpa [Stmt.sql, pyStr] using hshape

/-- Witness for C10 at a concrete input: creating an account with no hash
given embeds the text `None` as the credential. -/
theorem C10_witness :
    decideStmt pCrNoPw (getUser none (pyUpper pCrNoPw.name)) =
      some (.create (pyUpper pCrNoPw.name) pCrNoPw.password pCrNoPw.default_tablespace
        pCrNoPw.temporary_tablespace (some (mapState pCrNoPw.state))) ∧
    (Stmt.create (pyUpper pCrNoPw.name) pCrNoPw.password pCrNoPw.default_tablespace
        pCrNoPw.temporary_tablespace (some (mapState pCrNoPw.state))).sql =
      "CREATE USER " ++ pyUpper pCrNoPw.name ++ " IDENTIFIED BY VALUES '" ++ "None" ++ "'"
        ++ (if truthy pCrNoPw.default_tablespace then
              " DEFAULT TABLESPACE " ++ pyStr pCrNoPw.default_tablespace else "")
        ++ (if truthy pCrNoPw.temporary_tablespace then
              " TEMPORARY TABLESPACE " ++ pyStr pCrNoPw.temporary_tablespace else "")
        ++ " ACCOUNT " ++ mapState pCrNoPw.state :=
  C10_missing_hash_renders_none pCrNoPw none (by decide) (by decide) (by decide)
